import Mathlib

set_option maxRecDepth 8192

/-!
Verification development for the opera-scripts repository.

The three scripts, generate_circular_conductor.py,
example_buffer_calculate_graph_and_export.py and halbach_2d_cylinders.py, are
shallowly embedded below: module-level evaluation becomes explicit sequencing
in Except, geometric formulas become functions over the real numbers, data
values flowing through buffers and file export are modelled as rationals
(the properties under check are about structure and exact formulas, not about
floating point rounding), and host (Opera2d) API results enter the model as
parameters.  Host API calls that only create objects are recorded as events.
-/

/-- Python runtime errors that the embedded scripts can raise. -/
inductive PyError where
  | nameError (n : String)
  | importError (m : String)
  | zeroDivisionError
  | valueError (m : String)
deriving DecidableEq

namespace Conductor

/-!
Embedding of generate_circular_conductor.py.
-/

/-- Module-level names bound before the INPUTS section executes (lines 6-15):
numpy, importlib, optionally pyperclip, the to_clipboard flag and sqr. -/
def boundNamesBeforeInputs (pyperclipAvailable : Bool) : List String :=
  if pyperclipAvailable then
    ["np", "importlib", "pyperclip", "to_clipboard", "sqr"]
  else
    ["np", "importlib", "to_clipboard", "sqr"]

/-- Evaluating a bare name expression in Python: NameError unless bound. -/
def evalBareName (env : List String) (n : String) : Except PyError Unit :=
  if n ∈ env then .ok () else .error (.nameError n)

/-- The INPUTS section (lines 17-32).  Its first statement, line 18, is the
bare expression statement a, evaluated before the assignments that follow;
the name a is bound nowhere in the module. -/
def inputsSection (pyperclipAvailable : Bool) : Except PyError Unit :=
  evalBareName (boundNamesBeforeInputs pyperclipAvailable) "a"

/-- A 3-component point, one row of the numpy point arrays. -/
structure V3 (K : Type) where
  x : K
  y : K
  z : K
deriving DecidableEq

def vadd {K : Type} [Field K] (v w : V3 K) : V3 K :=
  ⟨v.x + w.x, v.y + w.y, v.z + w.z⟩

def vsub {K : Type} [Field K] (v w : V3 K) : V3 K :=
  ⟨v.x - w.x, v.y - w.y, v.z - w.z⟩

/-- Application of the matrix rotx (lines 55-57) to a point:
rotx = [[1,0,0],[0,c,-s],[0,s,c]]. -/
def rotxApply {K : Type} [Field K] (c s : K) (v : V3 K) : V3 K :=
  ⟨v.x, c * v.y - s * v.z, s * v.y + c * v.z⟩

noncomputable def radians (d : ℝ) : ℝ := d * Real.pi / 180

noncomputable def cosd (d : ℝ) : ℝ := Real.cos (radians d)

noncomputable def sind (d : ℝ) : ℝ := Real.sin (radians d)

/-- sqr = sqrt(2)/2 (line 15). -/
noncomputable def sqr : ℝ := Real.sqrt 2 / 2

/-- face1_corners before any shift (lines 38-41 and 59-62). -/
noncomputable def face1CornersBase (radius : ℝ) : Fin 4 → V3 ℝ :=
  ![⟨sqr * radius, sqr * radius, 0⟩,
    ⟨sqr * radius, -(sqr * radius), 0⟩,
    ⟨-(sqr * radius), -(sqr * radius), 0⟩,
    ⟨-(sqr * radius), sqr * radius, 0⟩]

/-- face1_extremes before any shift (lines 42-45 and 63-66). -/
noncomputable def face1ExtremesBase (radius : ℝ) : Fin 4 → V3 ℝ :=
  ![⟨radius, 0, 0⟩, ⟨0, -radius, 0⟩, ⟨-radius, 0, 0⟩, ⟨0, radius, 0⟩]

/-- The five point arrays produced by the GENERATE POINTS section. -/
structure Faces where
  face1_corners : Fin 4 → V3 ℝ
  face1_extremes : Fin 4 → V3 ℝ
  face2_corners : Fin 4 → V3 ℝ
  face3_corners : Fin 4 → V3 ℝ
  face3_extremes : Fin 4 → V3 ℝ

/-- The GENERATE POINTS section (lines 36-84): angle = none selects the
straight construction, a numeric angle the curved one (shift down by
rotation_center_y, rotate once or twice by rotx, shift back). -/
noncomputable def generatePoints (angle : Option ℝ) (rotation_center_y : ℝ)
    (radius : ℝ) (length : ℝ) : Faces :=
  match angle with
  | none =>
    let f1c := face1CornersBase radius
    let f1e := face1ExtremesBase radius
    { face1_corners := f1c
      face1_extremes := f1e
      face2_corners := fun i => vadd (f1c i) ⟨0, 0, length / 2⟩
      face3_corners := fun i => vadd (f1c i) ⟨0, 0, length⟩
      face3_extremes := fun i => vadd (f1e i) ⟨0, 0, length⟩ }
  | some a =>
    let c := cosd (-a / 2)
    let s := sind (-a / 2)
    let f1c0 := fun i => vsub (face1CornersBase radius i) ⟨0, rotation_center_y, 0⟩
    let f1e0 := fun i => vsub (face1ExtremesBase radius i) ⟨0, rotation_center_y, 0⟩
    let f2c := fun i => rotxApply c s (f1c0 i)
    let f3c := fun i => rotxApply c s (f2c i)
    let f3e := fun i => rotxApply c s (rotxApply c s (f1e0 i))
    let shift : V3 ℝ := ⟨0, rotation_center_y, 0⟩
    { face1_corners := fun i => vadd (f1c0 i) shift
      face1_extremes := fun i => vadd (f1e0 i) shift
      face2_corners := fun i => vadd (f2c i) shift
      face3_corners := fun i => vadd (f3c i) shift
      face3_extremes := fun i => vadd (f3e i) shift }

/-- One run of the script from the import preamble through point generation:
line 18 (the bare name a) is evaluated before any point is generated. -/
noncomputable def scriptRun (pyperclipAvailable : Bool) (angle : Option ℝ)
    (rotation_center_y radius length : ℝ) : Except PyError Faces := do
  let _ ← inputsSection pyperclipAvailable
  pure (generatePoints angle rotation_center_y radius length)

/-- find_spec check for pyperclip (line 9). -/
def findSpecPyperclip (available : Bool) : Option Unit :=
  if available then some () else none

/-- Importing pyperclip: fails exactly when the module is missing. -/
def importPyperclip (available : Bool) : Except PyError Unit :=
  if available then .ok () else .error (.importError "pyperclip")

/-- Lines 9-13: the import is attempted only when find_spec found the
module, and to_clipboard records the outcome. -/
def clipboardSetup (available : Bool) : Except PyError Bool :=
  match findSpecPyperclip available with
  | some _ => do
    let _ ← importPyperclip available
    pure true
  | none => pure false

/-- What the OUTPUT section does with the command string. -/
inductive ClipOutput where
  | copied (comi : String)
  | notice (msg : String)
deriving DecidableEq

/-- Lines 114-118: copy to clipboard when to_clipboard is set, otherwise
print a notice. -/
def clipboardOutput (to_clipboard : Bool) (comi : String) : ClipOutput :=
  if to_clipboard then .copied comi
  else .notice "comi code not exported to clipboard, pyperclip library not found"

/-- Rotation of a point by tdeg degrees about the axis parallel to x passing
through (0, rcy, 0): the operation the specification attributes to the curved
construction. -/
noncomputable def rotAboutAxisX (tdeg rcy : ℝ) (v : V3 ℝ) : V3 ℝ :=
  vadd (rotxApply (cosd tdeg) (sind tdeg) (vsub v ⟨0, rcy, 0⟩)) ⟨0, rcy, 0⟩

/-- The fractional digit block of a %.8f rendering: exactly 8 decimal digits
of n (the fractional part already scaled by 10^8). -/
def fracDigits8 (n : ℕ) : String :=
  ⟨(List.range 8).map (fun i => Char.ofNat (48 + n / 10 ^ (7 - i) % 10))⟩

/-- Fixed-point rendering with 8 decimals, the model of the f-string format
.8f applied to the point coordinates (values modelled as rationals, rounding
to nearest). -/
def fmt8 (q : ℚ) : String :=
  let n : ℕ := (Int.floor (|q| * 100000000 + 1 / 2)).toNat
  (if q < 0 then "-" else "") ++ toString (n / 100000000) ++ "."
    ++ fracDigits8 (n % 100000000)

/-- The three commands appended for one point by the loop body
(lines 99-101): XPk=… YPk=… ZPk=…, each value rendered with .8f. -/
def tripleFrag (k : ℕ) (p : V3 ℚ) : String :=
  "XP" ++ toString k ++ "=" ++ fmt8 p.x ++ " "
    ++ "YP" ++ toString k ++ "=" ++ fmt8 p.y ++ " "
    ++ "ZP" ++ toString k ++ "=" ++ fmt8 p.z ++ " "

/-- The fragments produced by the loop at line 96:
zip(range(1,21), all_points) truncates at the shorter sequence. -/
def tripleFrags (pts : List (V3 ℚ)) : List String :=
  ((List.range' 1 20).zip pts).map (fun kp => tripleFrag kp.1 kp.2)

/-- np.concatenate of the five faces (lines 88-92), in source order. -/
def all_points (f1c f3c f1e f2c f3e : List (V3 ℚ)) : List (V3 ℚ) :=
  f1c ++ f3c ++ f1e ++ f2c ++ f3e

/-- Lines 103-106 of the command tail, with the input values of the source
current_dens=1, tolerance=0.001, drive_label, coordinate_system. -/
def comiTailA : String :=
  "INCIRCUIT=NO CIRCUITELEMENT= "
    ++ "CURD=1 TOLERANCE=0.001 DRIVELABEL=\x27Default_Drive\x27 "
    ++ "THETA2=0 PHI2=0 PSI2=0 XCEN2=0 YCEN2=0 ZCEN2=0 "
    ++ "LCNAME=\x27coil1_p8\x27 RXY=0 RYZ=0 RZX=0 SYMMETRY=1 MODELCOMPONENT=NO"

/-- Line 107: a second copy of the closing fragment, appended directly after
the first with no separating space. -/
def comiTailB : String := "RXY=0 RYZ=0 RZX=0 SYMMETRY=1 MODELCOMPONENT=NO"

/-- The full BRICK20 command string (lines 94-107). -/
def comiString (pts : List (V3 ℚ)) : String :=
  "BRICK20 OPTION=NEW -KEEP " ++ String.join (tripleFrags pts)
    ++ comiTailA ++ comiTailB

/-- A concrete 4-point face used to instantiate the command builder. -/
def wFace : List (V3 ℚ) := [⟨0, 0, 0⟩, ⟨0, 0, 0⟩, ⟨0, 0, 0⟩, ⟨0, 0, 0⟩]

end Conductor

namespace ExampleBuffer

/-!
Embedding of example_buffer_calculate_graph_and_export.py.  Host API calls
that create or plot objects are recorded as events; np.savetxt is recorded
as an exportFile event carrying the filename it receives.
-/

/-- Observable actions the script performs through the host API and numpy. -/
inductive Event where
  | createGraph (name : String)
  | loadCase (n : ℤ)
  | createBuffer (name : String)
  | createLine (name : String)
  | plotLine (lineName graphName : String)
  | exportFile (filename : String)
deriving DecidableEq

/-- graph_name (line 28). -/
def graph_name : String := "By_plot_after_pulse"

/-- buffer_name_preffix (line 29, source spelling). -/
def buffer_name_preffix : String := "fields_at_"

/-- graph_line_name_preffix (line 30, source spelling). -/
def graph_line_name_preffix : String := "line_at_"

/-- State across loop iterations: the events performed so far and the value
of the variable buffer_filename (none while it is unbound). -/
structure LoopState where
  events : List Event
  buffer_filename : Option String
deriving DecidableEq

/-- One iteration of the case loop (lines 48-81): names are assigned (the
buffer filename only when the configured filename value is not None), the
case is loaded, buffer and graph line are created and plotted, and finally
np.savetxt is called on buffer_filename, which raises NameError if that
variable was never assigned. -/
def iterBody (filenamePre : Option String) (n : ℤ) (st : LoopState) :
    LoopState × Option PyError :=
  let buffer_name := buffer_name_preffix ++ toString n
  let line_name := graph_line_name_preffix ++ toString n
  let buffer_filename :=
    match filenamePre with
    | some p => some (p ++ toString n ++ ".csv")
    | none => st.buffer_filename
  let evs := st.events ++ [Event.loadCase n, Event.createBuffer buffer_name,
    Event.createLine line_name, Event.plotLine line_name graph_name]
  match buffer_filename with
  | some f => (⟨evs ++ [Event.exportFile f], some f⟩, none)
  | none => (⟨evs, none⟩, some (.nameError "buffer_filename"))

/-- Running the loop over the remaining case numbers; a raised error aborts
the script, keeping the events performed up to that point. -/
def runCases (filenamePre : Option String) :
    List ℤ → LoopState → List Event × Option PyError
  | [], st => (st.events, none)
  | n :: ns, st =>
    match iterBody filenamePre n st with
    | (st2, none) => runCases filenamePre ns st2
    | (st2, some e) => (st2.events, some e)

/-- Python range(initial_case, final_case+1) as a list of integers. -/
def caseList (a b : ℤ) : List ℤ :=
  (List.range (b + 1 - a).toNat).map (fun i : ℕ => a + (i : ℤ))

/-- The whole script after the inputs: create the graph (line 46), then run
the case loop; parameterised by the configured buffer_filename_prefix value
(an Option: the source comment says buffers are not exported when None) and
by the case range bounds. -/
def exampleScript (filenamePre : Option String) (a b : ℤ) :
    List Event × Option PyError :=
  runCases filenamePre (caseList a b) ⟨[Event.createGraph graph_name], none⟩

/-- The events one successful iteration of the loop contributes. -/
def iterEvents (p : String) (n : ℤ) : List Event :=
  [Event.loadCase n,
   Event.createBuffer (buffer_name_preffix ++ toString n),
   Event.createLine (graph_line_name_preffix ++ toString n),
   Event.plotLine (graph_line_name_preffix ++ toString n) graph_name,
   Event.exportFile (p ++ toString n ++ ".csv")]

/-- Recogniser for graph-creation events. -/
def isCreateGraph : Event → Bool
  | .createGraph _ => true
  | _ => false

end ExampleBuffer

namespace Halbach

/-!
Embedding of halbach_2d_cylinders.py: the sizing formulas (lines 101-106),
the homogeneity post-processing (lines 205-213) and the header of the .dat
export (lines 216-240).
-/

/-- block_diameter (line 102), as a function of the inputs and of
s = sin(pi/n_blocks). -/
def block_diameter {K : Type} [Field K]
    (bore_diameter s core_inner_thickness gap_blocks : K) : K :=
  bore_diameter * s / (1 - s - 2 * core_inner_thickness * s + gap_blocks)

/-- device_diameter (lines 103-106), as a function of the inputs and of the
already computed block diameter bd. -/
def device_diameter {K : Type} [Field K]
    (bore_diameter bd core_inner_thickness core_outer_thickness : K) : K :=
  bore_diameter + 2 * bd + 2 * core_inner_thickness * bd
    + 2 * core_outer_thickness * bd

/-- The y-coordinate of the centre of the upper block (line 129): the radius
R of the circle of block centres. -/
def upper_block_center_y {K : Type} [Field K]
    (bore_diameter bd core_inner_thickness : K) : K :=
  (1 / 2) * bore_diameter + core_inner_thickness * bd + (1 / 2) * bd

/-- Python min() over a list: error (none) on an empty sequence, otherwise a
left fold of the binary minimum. -/
def pyMin : List ℚ → Option ℚ
  | [] => none
  | x :: xs => some (xs.foldl min x)

/-- Python max() over a list, dually. -/
def pyMax : List ℚ → Option ℚ
  | [] => none
  | x :: xs => some (xs.foldl max x)

/-- Python list.index: the first index holding x, none (ValueError) when x
is absent. -/
def pyIndex : List String → String → Option ℕ
  | [], _ => none
  | y :: ys, x => if y = x then some 0 else (pyIndex ys x).map (· + 1)

/-- Lines 205-213: buffer_data_rows is one data list per column name; bmin
and bmax are Python min/max of the column at index buffer_column_names.index
of B; hom = 1e6*(bmax-bmin)/(2*b0), a plain division that raises
ZeroDivisionError when its divisor is zero.  b0 is the host-reported field
at the origin. -/
def gfrHom (names : List String) (data : String → List ℚ) (b0 : ℚ) :
    Except PyError ℚ :=
  let rows := names.map data
  match pyIndex names "B" with
  | none => .error (.valueError "substring not found")
  | some i =>
    let col := rows.getD i []
    match pyMin col, pyMax col with
    | some bmin, some bmax =>
      if 2 * b0 = 0 then .error .zeroDivisionError
      else .ok (1000000 * (bmax - bmin) / (2 * b0))
    | _, _ => .error (.valueError "empty sequence")

/-- The kind of value interpolated into one header line: a plain f-string
interpolation, a .12f one, a .2f one, or str() of a list. -/
inductive FmtVal where
  | plain (q : ℚ)
  | f12 (q : ℚ)
  | f2 (q : ℚ)
  | qlist (l : List ℚ)
deriving DecidableEq

/-- The labelled lines of the .dat header (lines 217-240), in order, each as
its label together with the value interpolated after the colon.  bd, dd and
hom are the block diameter, device diameter and homogeneity computed
earlier; bmin and bmax are the GFR boundary extrema; the trailing line of
joined column names (line 241) carries no label and is modelled with the
export itself. -/
def headerLines (n_blocks bore_diameter gap_blocks core_inner_thickness
    core_outer_thickness gfr_radius gfr_points mesh_blocks mesh_core mesh_max
    bd dd time_mesh time_solve b0 bmin bmax hom : ℚ)
    (bgs_factor bgs_mesh : List ℚ) : List (String × FmtVal) :=
  [("n_blocks", .plain n_blocks),
   ("bore_diameter (mm)", .plain bore_diameter),
   ("gap_blocks", .plain gap_blocks),
   ("gap_blocks (mm)", .plain (gap_blocks * bd)),
   ("core_inner_thickness", .plain core_inner_thickness),
   ("core_inner_thickness (mm)", .plain (core_inner_thickness * bd)),
   ("core_outer_thickness", .plain core_outer_thickness),
   ("core_outer_thickness (mm)", .plain (core_outer_thickness * bd)),
   ("gfr_radius (mm)", .plain gfr_radius),
   ("gfr_points", .plain gfr_points),
   ("mesh_blocks (mm)", .plain mesh_blocks),
   ("mesh_core (mm)", .plain mesh_core),
   ("bgs_factor", .qlist bgs_factor),
   ("bgs_mesh (mm)", .qlist bgs_mesh),
   ("mesh_max (mm)", .plain mesh_max),
   ("Block diameter (mm)", .plain bd),
   ("Device diameter (mm)", .plain dd),
   ("Meshing time (s)", .plain time_mesh),
   ("Solving time (s)", .plain time_solve),
   ("Central field (T)", .f12 b0),
   ("GFR radius (mm)", .f12 bmin),
   ("GFR boundary max. B (T)", .f12 bmin),
   ("GFR boundary min. B (T)", .f12 bmax),
   ("GFR homogeneity (p.p.m.)", .f2 hom)]

/-- Whether a header value is an interpolation of the quantity q (for a list
value: whether q is one of its elements). -/
def valueHolds (v : FmtVal) (q : ℚ) : Prop :=
  match v with
  | .plain x => x = q
  | .f12 x => x = q
  | .f2 x => x = q
  | .qlist l => q ∈ l

end Halbach

namespace SaveTxt

/-!
The np.savetxt export pattern shared by
example_buffer_calculate_graph_and_export.py (lines 74-81) and
halbach_2d_cylinders.py (lines 205-207 and 242-246): the data argument is
np.array(buffer_data_rows).T with one source list per buffer column, the
delimiter a comma and the header prefixed by the default comment marker.
-/

/-- np.array(rows).T for a rectangular list of per-column lists: the row
count of the result is the common length of the columns (read off the first
one, as np.array does for the shape), and entry (i,j) is rows(j)(i). -/
def npArrayT (rows : List (List ℚ)) : List (List ℚ) :=
  (List.range (rows.headD []).length).map (fun i => rows.map (fun r => r.getD i 0))

/-- The header line np.savetxt writes: the default comments marker followed
by the header argument. -/
def savetxtHeader (headerArg : String) : String := "# " ++ headerArg

/-- The header argument both scripts pass for the column names line:
join(buffer_column_names) with a comma separator. -/
def joinedNames (names : List String) : String := String.intercalate "," names

end SaveTxt

/-- C1: the claim states the input and point-generation logic of the conductor
script never raises an error for any configuration.  The code refutes this:
line 18 of the INPUTS section is the bare undefined name a, so every run
raises NameError there, whether the configuration is straight (angle = none)
or curved; the straight configuration of the source (length 450) fails just
like every other. -/
theorem conductor_run_raises_name_error (avail : Bool) (angle : Option ℝ)
    (rotation_center_y radius length : ℝ) :
    Conductor.scriptRun avail angle rotation_center_y radius length
      = .error (.nameError "a") := by
  cases avail <;>
    simp [Conductor.scriptRun, Conductor.inputsSection, Conductor.evalBareName,
      Conductor.boundNamesBeforeInputs]

/-- C6: if pyperclip is not importable the clipboard copy is skipped with a
printed notice and no exception; if it is importable, the full command string
is copied. -/
theorem conductor_clipboard_degrades (comi : String) :
    Conductor.clipboardSetup false = .ok false
    ∧ Conductor.clipboardOutput false comi
        = .notice "comi code not exported to clipboard, pyperclip library not found"
    ∧ Conductor.clipboardSetup true = .ok true
    ∧ Conductor.clipboardOutput true comi = .copied comi :=
  ⟨rfl, rfl, rfl, rfl⟩

namespace Conductor

theorem vadd_vsub_cancel (v w : V3 ℝ) : vadd (vsub v w) w = v := by
  simp [vadd, vsub]

theorem vsub_vadd_cancel (v w : V3 ℝ) : vsub (vadd v w) w = v := by
  simp [vadd, vsub]

theorem cosd_sind_double (a : ℝ) :
    cosd (-a) = cosd (-a / 2) * cosd (-a / 2) - sind (-a / 2) * sind (-a / 2)
    ∧ sind (-a) = sind (-a / 2) * cosd (-a / 2) + cosd (-a / 2) * sind (-a / 2) := by
  have h : radians (-a) = radians (-a / 2) + radians (-a / 2) := by
    unfold radians; ring
  exact ⟨by rw [cosd, h, Real.cos_add, cosd, sind],
         by rw [sind, h, Real.sin_add, cosd, sind]⟩

theorem rotx_twice (a : ℝ) (v : V3 ℝ) :
    rotxApply (cosd (-a / 2)) (sind (-a / 2))
        (rotxApply (cosd (-a / 2)) (sind (-a / 2)) v)
      = rotxApply (cosd (-a)) (sind (-a)) v := by
  obtain ⟨hc, hs⟩ := cosd_sind_double a
  simp only [rotxApply, hc, hs, V3.mk.injEq]
  exact ⟨trivial, by ring, by ring⟩

end Conductor

/-- C5: the conductor geometry is selected solely by whether angle is None.
Straight (angle = none): face2_corners is face1_corners translated by
(0,0,length/2) and the face3 points are the face1 points translated by
(0,0,length).  Curved (angle = some a): each face2 corner is the
corresponding face1 corner rotated by -a/2 degrees about the x-parallel axis
through (0, rotation_center_y, 0), and each face3 point is the corresponding
face1 point rotated by -a degrees about that axis. -/
theorem conductor_geometry_by_angle (rotation_center_y radius length : ℝ) :
    (∀ i,
      (Conductor.generatePoints none rotation_center_y radius length).face1_corners i
          = Conductor.face1CornersBase radius i
      ∧ (Conductor.generatePoints none rotation_center_y radius length).face1_extremes i
          = Conductor.face1ExtremesBase radius i
      ∧ (Conductor.generatePoints none rotation_center_y radius length).face2_corners i
          = Conductor.vadd (Conductor.face1CornersBase radius i) ⟨0, 0, length / 2⟩
      ∧ (Conductor.generatePoints none rotation_center_y radius length).face3_corners i
          = Conductor.vadd (Conductor.face1CornersBase radius i) ⟨0, 0, length⟩
      ∧ (Conductor.generatePoints none rotation_center_y radius length).face3_extremes i
          = Conductor.vadd (Conductor.face1ExtremesBase radius i) ⟨0, 0, length⟩)
    ∧ (∀ a : ℝ, ∀ i,
      (Conductor.generatePoints (some a) rotation_center_y radius length).face1_corners i
          = Conductor.face1CornersBase radius i
      ∧ (Conductor.generatePoints (some a) rotation_center_y radius length).face2_corners i
          = Conductor.rotAboutAxisX (-a / 2) rotation_center_y
              ((Conductor.generatePoints (some a) rotation_center_y radius length).face1_corners i)
      ∧ (Conductor.generatePoints (some a) rotation_center_y radius length).face3_corners i
          = Conductor.rotAboutAxisX (-a) rotation_center_y
              ((Conductor.generatePoints (some a) rotation_center_y radius length).face1_corners i)
      ∧ (Conductor.generatePoints (some a) rotation_center_y radius length).face3_extremes i
          = Conductor.rotAboutAxisX (-a) rotation_center_y
              ((Conductor.generatePoints (some a) rotation_center_y radius length).face1_extremes i)) := by
  constructor
  · exact fun i => ⟨rfl, rfl, rfl, rfl, rfl⟩
  · intro a i
    simp only [Conductor.generatePoints, Conductor.rotAboutAxisX,
      Conductor.vadd_vsub_cancel, Conductor.vsub_vadd_cancel]
    refine ⟨trivial, trivial, ?_, ?_⟩
    · rw [Conductor.rotx_twice]
    · rw [Conductor.rotx_twice]

namespace Conductor

theorem take4 {α : Type} (l1 l2 : List α) (h : l1.length = 4) (i : ℕ)
    (hi : i < 4) : (l1 ++ l2)[i]? = l1[i]? := by
  rw [List.getElem?_append_left (by omega)]

theorem skip4 {α : Type} (l1 l2 : List α) (h : l1.length = 4) (k : ℕ) :
    (l1 ++ l2)[4 + k]? = l2[k]? := by
  rw [List.getElem?_append_right (by omega)]
  congr 1
  omega

theorem takeWhile_append_stop (l1 l2 : List Char)
    (h : ∀ c ∈ l1, (c != '.') = true) :
    ((l1 ++ '.' :: l2).takeWhile (fun c => c != '.')) = l1 := by
  induction l1 with
  | nil => simp [List.takeWhile_cons]
  | cons c cs ih =>
    have hc := h c (List.mem_cons_self c cs)
    simp only [List.cons_append, List.takeWhile_cons, hc, if_true]
    rw [ih (fun x hx => h x (List.mem_cons_of_mem _ hx))]

theorem fracDigits8_all_digits (n : ℕ) :
    ∀ c ∈ (fracDigits8 n).data, (c != '.') = true := by
  intro c hc
  simp only [fracDigits8, List.mem_map, List.mem_range] at hc
  obtain ⟨i, _, rfl⟩ := hc
  have hd : n / 10 ^ (7 - i) % 10 < 10 := Nat.mod_lt _ (by norm_num)
  revert hd
  generalize n / 10 ^ (7 - i) % 10 = d
  revert d
  decide

theorem frac_after_dot (pre F : List Char) (hF : ∀ c ∈ F, (c != '.') = true) :
    (((pre ++ '.' :: F).reverse).takeWhile (fun c => c != '.')).length = F.length := by
  rw [List.reverse_append, List.reverse_cons, List.append_assoc, List.singleton_append]
  rw [takeWhile_append_stop _ _ (fun c hc => hF c (List.mem_reverse.mp hc))]
  exact List.length_reverse F

theorem fmt8_frac_len (q : ℚ) :
    (((fmt8 q).data.reverse).takeWhile (fun c => c != '.')).length = 8 := by
  have hdata : (fmt8 q).data
      = ((if q < 0 then "-" else "").data
          ++ (toString ((Int.floor (|q| * 100000000 + 1 / 2)).toNat / 100000000)).data)
        ++ '.' :: (fracDigits8 ((Int.floor (|q| * 100000000 + 1 / 2)).toNat % 100000000)).data := by
    simp [fmt8, String.data_append]
  rw [hdata, frac_after_dot _ _ (fracDigits8_all_digits _)]
  simp [fracDigits8]

end Conductor

/-- C10: the generated BRICK20 command contains exactly 20 coordinate triples
XP1..XP20, YP..,ZP.., taken in order from face1_corners, face3_corners,
face1_extremes, face2_corners, face3_extremes (4 points each), each value
rendered with 8 decimal places; and the command tail emits its closing
fragment twice, the second copy glued directly after the first
MODELCOMPONENT=NO, so the string contains the token MODELCOMPONENT=NORXY=0. -/
theorem conductor_comi_structure (f1c f3c f1e f2c f3e : List (Conductor.V3 ℚ))
    (h1 : f1c.length = 4) (h2 : f3c.length = 4) (h3 : f1e.length = 4)
    (h4 : f2c.length = 4) (h5 : f3e.length = 4) :
    (Conductor.all_points f1c f3c f1e f2c f3e).length = 20
    ∧ (Conductor.tripleFrags (Conductor.all_points f1c f3c f1e f2c f3e)).length = 20
    ∧ (∀ k p, (Conductor.all_points f1c f3c f1e f2c f3e)[k]? = some p →
        (Conductor.tripleFrags (Conductor.all_points f1c f3c f1e f2c f3e))[k]?
          = some (Conductor.tripleFrag (k + 1) p))
    ∧ (∀ i, i < 4 →
        (Conductor.all_points f1c f3c f1e f2c f3e)[i]? = f1c[i]?
        ∧ (Conductor.all_points f1c f3c f1e f2c f3e)[4 + i]? = f3c[i]?
        ∧ (Conductor.all_points f1c f3c f1e f2c f3e)[8 + i]? = f1e[i]?
        ∧ (Conductor.all_points f1c f3c f1e f2c f3e)[12 + i]? = f2c[i]?
        ∧ (Conductor.all_points f1c f3c f1e f2c f3e)[16 + i]? = f3e[i]?)
    ∧ (∀ q : ℚ,
        (((Conductor.fmt8 q).data.reverse).takeWhile (fun c => c != '.')).length = 8)
    ∧ (∃ s1 s2 : String,
        Conductor.comiString (Conductor.all_points f1c f3c f1e f2c f3e)
          = s1 ++ "MODELCOMPONENT=NORXY=0" ++ s2) := by
  have hlen : (Conductor.all_points f1c f3c f1e f2c f3e).length = 20 := by
    simp [Conductor.all_points, h1, h2, h3, h4, h5]
  refine ⟨hlen, ?_, ?_, ?_, Conductor.fmt8_frac_len, ?_⟩
  · simp [Conductor.tripleFrags, List.length_zip, List.length_range', hlen]
  · intro k p hp
    obtain ⟨hk', -⟩ := List.getElem?_eq_some.mp hp
    have hk : k < 20 := by omega
    have hr : (List.range' 1 20)[k]? = some (k + 1) := by
      rw [List.getElem?_range' _ _ hk]
      congr 1
      omega
    have hz : ((List.range' 1 20).zip
        (Conductor.all_points f1c f3c f1e f2c f3e))[k]? = some (k + 1, p) :=
      List.getElem?_zip_eq_some.mpr ⟨hr, hp⟩
    simp [Conductor.tripleFrags, List.getElem?_map, hz]
  · have hassoc : Conductor.all_points f1c f3c f1e f2c f3e
        = f1c ++ (f3c ++ (f1e ++ (f2c ++ f3e))) := by
      simp [Conductor.all_points, List.append_assoc]
    intro i hi
    refine ⟨?_, ?_, ?_, ?_, ?_⟩
    · rw [hassoc]
      exact Conductor.take4 _ _ h1 i hi
    · rw [hassoc, Conductor.skip4 _ _ h1]
      exact Conductor.take4 _ _ h2 i hi
    · rw [hassoc, show 8 + i = 4 + (4 + i) from by omega,
        Conductor.skip4 _ _ h1, Conductor.skip4 _ _ h2]
      exact Conductor.take4 _ _ h3 i hi
    · rw [hassoc, show 12 + i = 4 + (4 + (4 + i)) from by omega,
        Conductor.skip4 _ _ h1, Conductor.skip4 _ _ h2, Conductor.skip4 _ _ h3]
      exact Conductor.take4 _ _ h4 i hi
    · rw [hassoc, show 16 + i = 4 + (4 + (4 + (4 + i))) from by omega,
        Conductor.skip4 _ _ h1, Conductor.skip4 _ _ h2, Conductor.skip4 _ _ h3,
        Conductor.skip4 _ _ h4]
  · refine ⟨"BRICK20 OPTION=NEW -KEEP "
        ++ String.join (Conductor.tripleFrags (Conductor.all_points f1c f3c f1e f2c f3e))
        ++ "INCIRCUIT=NO CIRCUITELEMENT= CURD=1 TOLERANCE=0.001 DRIVELABEL=\x27Default_Drive\x27 THETA2=0 PHI2=0 PSI2=0 XCEN2=0 YCEN2=0 ZCEN2=0 LCNAME=\x27coil1_p8\x27 RXY=0 RYZ=0 RZX=0 SYMMETRY=1 ",
      " RYZ=0 RZX=0 SYMMETRY=1 MODELCOMPONENT=NO", ?_⟩
    have h : Conductor.comiTailA ++ Conductor.comiTailB
        = "INCIRCUIT=NO CIRCUITELEMENT= CURD=1 TOLERANCE=0.001 DRIVELABEL=\x27Default_Drive\x27 THETA2=0 PHI2=0 PSI2=0 XCEN2=0 YCEN2=0 ZCEN2=0 LCNAME=\x27coil1_p8\x27 RXY=0 RYZ=0 RZX=0 SYMMETRY=1 "
          ++ ("MODELCOMPONENT=NORXY=0" ++ " RYZ=0 RZX=0 SYMMETRY=1 MODELCOMPONENT=NO") := by
      decide
    simp only [Conductor.comiString]
    rw [String.append_assoc, h]
    simp [String.append_assoc]

theorem conductor_comi_structure_witness :
    Conductor.wFace.length = 4
    ∧ ((Conductor.all_points Conductor.wFace Conductor.wFace Conductor.wFace
          Conductor.wFace Conductor.wFace).length = 20
      ∧ (Conductor.tripleFrags (Conductor.all_points Conductor.wFace Conductor.wFace
          Conductor.wFace Conductor.wFace Conductor.wFace)).length = 20
      ∧ (∀ k p, (Conductor.all_points Conductor.wFace Conductor.wFace Conductor.wFace
            Conductor.wFace Conductor.wFace)[k]? = some p →
          (Conductor.tripleFrags (Conductor.all_points Conductor.wFace Conductor.wFace
            Conductor.wFace Conductor.wFace Conductor.wFace))[k]?
            = some (Conductor.tripleFrag (k + 1) p))
      ∧ (∀ i, i < 4 →
          (Conductor.all_points Conductor.wFace Conductor.wFace Conductor.wFace
            Conductor.wFace Conductor.wFace)[i]? = Conductor.wFace[i]?
          ∧ (Conductor.all_points Conductor.wFace Conductor.wFace Conductor.wFace
            Conductor.wFace Conductor.wFace)[4 + i]? = Conductor.wFace[i]?
          ∧ (Conductor.all_points Conductor.wFace Conductor.wFace Conductor.wFace
            Conductor.wFace Conductor.wFace)[8 + i]? = Conductor.wFace[i]?
          ∧ (Conductor.all_points Conductor.wFace Conductor.wFace Conductor.wFace
            Conductor.wFace Conductor.wFace)[12 + i]? = Conductor.wFace[i]?
          ∧ (Conductor.all_points Conductor.wFace Conductor.wFace Conductor.wFace
            Conductor.wFace Conductor.wFace)[16 + i]? = Conductor.wFace[i]?)
      ∧ (∀ q : ℚ,
          (((Conductor.fmt8 q).data.reverse).takeWhile (fun c => c != '.')).length = 8)
      ∧ (∃ s1 s2 : String,
          Conductor.comiString (Conductor.all_points Conductor.wFace Conductor.wFace
            Conductor.wFace Conductor.wFace Conductor.wFace)
            = s1 ++ "MODELCOMPONENT=NORXY=0" ++ s2)) :=
  ⟨rfl, conductor_comi_structure Conductor.wFace Conductor.wFace Conductor.wFace
    Conductor.wFace Conductor.wFace rfl rfl rfl rfl rfl⟩

/-- C2: every buffer export writes a header containing the column names
joined by commas followed by the transpose of the per-column arrays: one row
per sample point, one column per buffer column, entry (i,j) being sample i
of column j. -/
theorem buffer_export_table (names : List String) (rows : List (List ℚ)) (m : ℕ)
    (hne : rows ≠ []) (hrect : ∀ r ∈ rows, r.length = m) :
    (∃ s, SaveTxt.savetxtHeader (SaveTxt.joinedNames names)
        = s ++ String.intercalate "," names)
    ∧ (SaveTxt.npArrayT rows).length = m
    ∧ (∀ row ∈ SaveTxt.npArrayT rows, row.length = rows.length)
    ∧ (∀ i j, i < m → j < rows.length →
        ((SaveTxt.npArrayT rows).getD i []).getD j 0
          = (rows.getD j []).getD i 0) := by
  have hL : (rows.headD []).length = m := by
    cases rows with
    | nil => exact absurd rfl hne
    | cons r rs => simpa using hrect r (List.mem_cons_self r rs)
  refine ⟨⟨"# ", rfl⟩, ?_, ?_, ?_⟩
  · unfold SaveTxt.npArrayT
    rw [List.length_map, List.length_range]
    exact hL
  · intro row hrow
    simp only [SaveTxt.npArrayT, List.mem_map, List.mem_range] at hrow
    obtain ⟨i, -, rfl⟩ := hrow
    simp
  · intro i j hi hj
    have hrow : (SaveTxt.npArrayT rows)[i]? = some (rows.map (fun r => r.getD i 0)) := by
      unfold SaveTxt.npArrayT
      rw [List.getElem?_map, List.getElem?_range (by omega : i < (rows.headD []).length)]
      rfl
    calc ((SaveTxt.npArrayT rows).getD i []).getD j 0
        = (rows.map (fun r => r.getD i 0)).getD j 0 := by
          rw [List.getD_eq_getElem?_getD (SaveTxt.npArrayT rows) i, hrow,
            Option.getD_some]
      _ = (rows.getD j []).getD i 0 := by
          rw [List.getD_eq_getElem?_getD (rows.map fun r => r.getD i 0) j,
            List.getElem?_map, List.getD_eq_getElem?_getD rows j,
            List.getElem?_eq_getElem hj]
          rfl

theorem buffer_export_table_witness :
    (([[(1 : ℚ), 2, 3], [4, 5, 6]] : List (List ℚ)) ≠ []
      ∧ (∀ r ∈ ([[(1 : ℚ), 2, 3], [4, 5, 6]] : List (List ℚ)), r.length = 3))
    ∧ ((∃ s, SaveTxt.savetxtHeader (SaveTxt.joinedNames ["X", "B"])
        = s ++ String.intercalate "," ["X", "B"])
      ∧ (SaveTxt.npArrayT [[(1 : ℚ), 2, 3], [4, 5, 6]]).length = 3
      ∧ (∀ row ∈ SaveTxt.npArrayT [[(1 : ℚ), 2, 3], [4, 5, 6]],
          row.length = ([[(1 : ℚ), 2, 3], [4, 5, 6]] : List (List ℚ)).length)
      ∧ (∀ i j, i < 3 → j < ([[(1 : ℚ), 2, 3], [4, 5, 6]] : List (List ℚ)).length →
          ((SaveTxt.npArrayT [[(1 : ℚ), 2, 3], [4, 5, 6]]).getD i []).getD j 0
            = (([[(1 : ℚ), 2, 3], [4, 5, 6]] : List (List ℚ)).getD j []).getD i 0)) :=
  ⟨⟨by decide, by decide⟩,
    buffer_export_table ["X", "B"] [[1, 2, 3], [4, 5, 6]] 3 (by decide) (by decide)⟩

/-- C3: with s = sin(pi/n_blocks), the computed block diameter satisfies the
packing constraint 2*R*s = block_diameter*(1+gap_blocks) where R is the
block-centre radius 0.5*bore_diameter + core_inner_thickness*block_diameter
+ 0.5*block_diameter; and the device diameter equals
bore_diameter + 2*block_diameter*(1+core_inner_thickness+core_outer_thickness). -/
theorem halbach_packing (n_blocks : ℕ)
    (bore_diameter core_inner_thickness gap_blocks core_outer_thickness : ℝ)
    (hden : 1 - Real.sin (Real.pi / (n_blocks : ℝ))
        - 2 * core_inner_thickness * Real.sin (Real.pi / (n_blocks : ℝ))
        + gap_blocks ≠ 0) :
    2 * Halbach.upper_block_center_y bore_diameter
        (Halbach.block_diameter bore_diameter (Real.sin (Real.pi / (n_blocks : ℝ)))
          core_inner_thickness gap_blocks) core_inner_thickness
      * Real.sin (Real.pi / (n_blocks : ℝ))
      = Halbach.block_diameter bore_diameter (Real.sin (Real.pi / (n_blocks : ℝ)))
          core_inner_thickness gap_blocks * (1 + gap_blocks)
    ∧ Halbach.device_diameter bore_diameter
        (Halbach.block_diameter bore_diameter (Real.sin (Real.pi / (n_blocks : ℝ)))
          core_inner_thickness gap_blocks) core_inner_thickness core_outer_thickness
      = bore_diameter
        + 2 * Halbach.block_diameter bore_diameter (Real.sin (Real.pi / (n_blocks : ℝ)))
            core_inner_thickness gap_blocks
          * (1 + core_inner_thickness + core_outer_thickness) := by
  generalize Real.sin (Real.pi / (n_blocks : ℝ)) = s at hden ⊢
  constructor
  · unfold Halbach.upper_block_center_y Halbach.block_diameter
    field_simp
    ring
  · unfold Halbach.device_diameter
    ring

theorem halbach_packing_witness :
    (1 - Real.sin (Real.pi / ((12 : ℕ) : ℝ))
        - 2 * (1 / 10) * Real.sin (Real.pi / ((12 : ℕ) : ℝ)) + 1 / 10 ≠ 0)
    ∧ (2 * Halbach.upper_block_center_y 270
          (Halbach.block_diameter 270 (Real.sin (Real.pi / ((12 : ℕ) : ℝ))) (1 / 10) (1 / 10))
          (1 / 10) * Real.sin (Real.pi / ((12 : ℕ) : ℝ))
        = Halbach.block_diameter 270 (Real.sin (Real.pi / ((12 : ℕ) : ℝ))) (1 / 10) (1 / 10)
            * (1 + 1 / 10)
      ∧ Halbach.device_diameter 270
          (Halbach.block_diameter 270 (Real.sin (Real.pi / ((12 : ℕ) : ℝ))) (1 / 10) (1 / 10))
          (1 / 10) (1 / 10)
        = 270 + 2 * Halbach.block_diameter 270 (Real.sin (Real.pi / ((12 : ℕ) : ℝ)))
              (1 / 10) (1 / 10) * (1 + 1 / 10 + 1 / 10)) := by
  have h12 : ((12 : ℕ) : ℝ) = 12 := by norm_num
  have hs : Real.sin (Real.pi / ((12 : ℕ) : ℝ)) < 11 / 12 := by
    have h1 : Real.sin (Real.pi / ((12 : ℕ) : ℝ)) < Real.pi / ((12 : ℕ) : ℝ) := by
      apply Real.sin_lt
      rw [h12]
      positivity
    have h2 : Real.pi / ((12 : ℕ) : ℝ) < 11 / 12 := by
      rw [h12]
      have := Real.pi_lt_d2
      linarith
    linarith
  have hden : 1 - Real.sin (Real.pi / ((12 : ℕ) : ℝ))
      - 2 * (1 / 10) * Real.sin (Real.pi / ((12 : ℕ) : ℝ)) + 1 / 10 ≠ 0 := by
    have hpos : (0 : ℝ) < 1 - Real.sin (Real.pi / ((12 : ℕ) : ℝ))
        - 2 * (1 / 10) * Real.sin (Real.pi / ((12 : ℕ) : ℝ)) + 1 / 10 := by
      linarith
    exact hpos.ne'
  exact ⟨hden, halbach_packing 12 270 (1 / 10) (1 / 10) (1 / 10) hden⟩

namespace ExampleBuffer

theorem runCases_filename_some (p : String) (ns : List ℤ) (evs : List Event)
    (bf : Option String) :
    runCases (some p) ns ⟨evs, bf⟩ = (evs ++ ns.flatMap (iterEvents p), none) := by
  induction ns generalizing evs bf with
  | nil => simp [runCases]
  | cons n ns ih =>
    simp only [runCases, iterBody, List.flatMap_cons]
    rw [ih]
    simp [iterEvents, List.append_assoc]

theorem mem_caseList (a b n : ℤ) : n ∈ caseList a b ↔ a ≤ n ∧ n ≤ b := by
  simp only [caseList, List.mem_map, List.mem_range]
  constructor
  · rintro ⟨i, hi, rfl⟩
    omega
  · rintro ⟨h1, h2⟩
    exact ⟨(n - a).toNat, by omega, by omega⟩

theorem caseList_cons (a b : ℤ) (hab : a ≤ b) :
    caseList a b = a :: caseList (a + 1) b := by
  have h : (b + 1 - a).toNat = (b + 1 - (a + 1)).toNat + 1 := by omega
  rw [caseList, h, List.range_succ_eq_map, List.map_cons, List.map_map, caseList]
  congr 1
  · simp
  · refine List.map_congr_left ?_
    intro i _
    simp only [Function.comp_apply]
    push_cast
    ring

theorem flatMap_iterEvents_no_graph (p : String) (ns : List ℤ) :
    (ns.flatMap (iterEvents p)).filter isCreateGraph = [] := by
  induction ns with
  | nil => rfl
  | cons n ns ih =>
    simp only [List.flatMap_cons, List.filter_append, ih, List.append_nil]
    simp [iterEvents, isCreateGraph, List.filter]

end ExampleBuffer

/-- C4: for every initial_case <= final_case, the case loop runs exactly
final_case - initial_case + 1 iterations, loading the cases in ascending
order from initial_case to final_case inclusive, each iteration creating
exactly one buffer named buffer_name_preffix + str(n) and one graph line
named graph_line_name_preffix + str(n) plotted onto the single graph created
before the loop. -/
theorem example_case_loop (a b : ℤ) (hab : a ≤ b) :
    (ExampleBuffer.exampleScript (some "fields_at_") a b).2 = none
    ∧ (ExampleBuffer.exampleScript (some "fields_at_") a b).1
        = ExampleBuffer.Event.createGraph ExampleBuffer.graph_name
            :: (ExampleBuffer.caseList a b).flatMap
                (ExampleBuffer.iterEvents "fields_at_")
    ∧ (ExampleBuffer.caseList a b).length = (b - a + 1).toNat
    ∧ (∀ n : ℤ, n ∈ ExampleBuffer.caseList a b ↔ a ≤ n ∧ n ≤ b)
    ∧ (ExampleBuffer.caseList a b).head? = some a
    ∧ List.Chain' (fun x y => y = x + 1) (ExampleBuffer.caseList a b)
    ∧ ((ExampleBuffer.exampleScript (some "fields_at_") a b).1.filter
        ExampleBuffer.isCreateGraph).length = 1 := by
  have hrun : ExampleBuffer.exampleScript (some "fields_at_") a b
      = (ExampleBuffer.Event.createGraph ExampleBuffer.graph_name
          :: (ExampleBuffer.caseList a b).flatMap
              (ExampleBuffer.iterEvents "fields_at_"), none) := by
    rw [ExampleBuffer.exampleScript, ExampleBuffer.runCases_filename_some]
    rfl
  refine ⟨by rw [hrun], by rw [hrun], ?_, ExampleBuffer.mem_caseList a b, ?_, ?_, ?_⟩
  · simp only [ExampleBuffer.caseList, List.length_map, List.length_range]
    omega
  · rw [ExampleBuffer.caseList_cons a b hab]
    rfl
  · rw [List.chain'_iff_get]
    intro i hi
    simp only [ExampleBuffer.caseList, List.length_map, List.length_range] at hi
    simp only [ExampleBuffer.caseList, List.get_eq_getElem, List.getElem_map,
      List.getElem_range]
    push_cast
    ring
  · rw [hrun]
    simp only [List.filter_cons]
    rw [ExampleBuffer.flatMap_iterEvents_no_graph]
    rfl

theorem example_case_loop_witness :
    ((29 : ℤ) ≤ 43)
    ∧ ((ExampleBuffer.exampleScript (some "fields_at_") 29 43).2 = none
      ∧ (ExampleBuffer.exampleScript (some "fields_at_") 29 43).1
          = ExampleBuffer.Event.createGraph ExampleBuffer.graph_name
              :: (ExampleBuffer.caseList 29 43).flatMap
                  (ExampleBuffer.iterEvents "fields_at_")
      ∧ (ExampleBuffer.caseList 29 43).length = ((43 : ℤ) - 29 + 1).toNat
      ∧ (∀ n : ℤ, n ∈ ExampleBuffer.caseList 29 43 ↔ 29 ≤ n ∧ n ≤ 43)
      ∧ (ExampleBuffer.caseList 29 43).head? = some 29
      ∧ List.Chain' (fun x y => y = x + 1) (ExampleBuffer.caseList 29 43)
      ∧ ((ExampleBuffer.exampleScript (some "fields_at_") 29 43).1.filter
          ExampleBuffer.isCreateGraph).length = 1) :=
  ⟨by decide, example_case_loop 29 43 (by decide)⟩

/-- C8: the buffer filename is assigned only when buffer_filename_prefix is
not None, yet the export uses it unconditionally: with prefix None, the
first iteration reaches the export step with buffer_filename unbound and
fails with NameError (after loading case initial_case and creating its
buffer and line), no file export event ever happens, and with a non-None
prefix every case in range is exported to prefix + str(n) + .csv. -/
theorem example_filename_unbound (a b : ℤ) (hab : a ≤ b) :
    (ExampleBuffer.exampleScript none a b).2
        = some (.nameError "buffer_filename")
    ∧ (ExampleBuffer.exampleScript none a b).1
        = [ExampleBuffer.Event.createGraph ExampleBuffer.graph_name,
           ExampleBuffer.Event.loadCase a,
           ExampleBuffer.Event.createBuffer
             (ExampleBuffer.buffer_name_preffix ++ toString a),
           ExampleBuffer.Event.createLine
             (ExampleBuffer.graph_line_name_preffix ++ toString a),
           ExampleBuffer.Event.plotLine
             (ExampleBuffer.graph_line_name_preffix ++ toString a)
             ExampleBuffer.graph_name]
    ∧ (∀ f, ExampleBuffer.Event.exportFile f
        ∉ (ExampleBuffer.exampleScript none a b).1)
    ∧ (∀ p : String, ∀ n : ℤ, a ≤ n → n ≤ b →
        ExampleBuffer.Event.exportFile (p ++ toString n ++ ".csv")
          ∈ (ExampleBuffer.exampleScript (some p) a b).1) := by
  have hrun : ExampleBuffer.exampleScript none a b
      = ([ExampleBuffer.Event.createGraph ExampleBuffer.graph_name,
          ExampleBuffer.Event.loadCase a,
          ExampleBuffer.Event.createBuffer
            (ExampleBuffer.buffer_name_preffix ++ toString a),
          ExampleBuffer.Event.createLine
            (ExampleBuffer.graph_line_name_preffix ++ toString a),
          ExampleBuffer.Event.plotLine
            (ExampleBuffer.graph_line_name_preffix ++ toString a)
            ExampleBuffer.graph_name],
         some (.nameError "buffer_filename")) := by
    rw [ExampleBuffer.exampleScript, ExampleBuffer.caseList_cons a b hab]
    rfl
  refine ⟨by rw [hrun], by rw [hrun], ?_, ?_⟩
  · intro f
    rw [hrun]
    simp
  · intro p n h1 h2
    rw [ExampleBuffer.exampleScript, ExampleBuffer.runCases_filename_some]
    simp only [List.mem_append, List.mem_flatMap]
    right
    exact ⟨n, (ExampleBuffer.mem_caseList a b n).mpr ⟨h1, h2⟩,
      by simp [ExampleBuffer.iterEvents]⟩

theorem example_filename_unbound_witness :
    ((29 : ℤ) ≤ 43)
    ∧ ((ExampleBuffer.exampleScript none 29 43).2
          = some (.nameError "buffer_filename")
      ∧ (ExampleBuffer.exampleScript none 29 43).1
          = [ExampleBuffer.Event.createGraph ExampleBuffer.graph_name,
             ExampleBuffer.Event.loadCase 29,
             ExampleBuffer.Event.createBuffer
               (ExampleBuffer.buffer_name_preffix ++ toString (29 : ℤ)),
             ExampleBuffer.Event.createLine
               (ExampleBuffer.graph_line_name_preffix ++ toString (29 : ℤ)),
             ExampleBuffer.Event.plotLine
               (ExampleBuffer.graph_line_name_preffix ++ toString (29 : ℤ))
               ExampleBuffer.graph_name]
      ∧ (∀ f, ExampleBuffer.Event.exportFile f
          ∉ (ExampleBuffer.exampleScript none 29 43).1)
      ∧ (∀ p : String, ∀ n : ℤ, 29 ≤ n → n ≤ 43 →
          ExampleBuffer.Event.exportFile (p ++ toString n ++ ".csv")
            ∈ (ExampleBuffer.exampleScript (some p) 29 43).1)) :=
  ⟨by decide, example_filename_unbound 29 43 (by decide)⟩

namespace Halbach

theorem foldl_min_mem (x : ℚ) (xs : List ℚ) : xs.foldl min x ∈ x :: xs := by
  induction xs generalizing x with
  | nil => simp
  | cons y ys ih =>
    have h := ih (min x y)
    simp only [List.foldl_cons]
    rcases List.mem_cons.mp h with h1 | h1
    · rcases min_choice x y with hxy | hxy
      · rw [h1, hxy]
        exact List.mem_cons_self x (y :: ys)
      · rw [h1, hxy]
        exact List.mem_cons_of_mem x (List.mem_cons_self y ys)
    · exact List.mem_cons_of_mem x (List.mem_cons_of_mem y h1)

theorem foldl_min_le (x : ℚ) (xs : List ℚ) : ∀ y ∈ x :: xs, xs.foldl min x ≤ y := by
  induction xs generalizing x with
  | nil =>
    intro y hy
    simp only [List.mem_singleton] at hy
    simp [hy]
  | cons z zs ih =>
    intro y hy
    simp only [List.foldl_cons]
    have hbase : zs.foldl min (min x z) ≤ min x z :=
      ih (min x z) (min x z) (List.mem_cons_self _ _)
    rcases List.mem_cons.mp hy with rfl | hy2
    · exact le_trans hbase (min_le_left _ _)
    · rcases List.mem_cons.mp hy2 with rfl | hy3
      · exact le_trans hbase (min_le_right _ _)
      · exact ih (min x z) y (List.mem_cons_of_mem _ hy3)

theorem foldl_max_mem (x : ℚ) (xs : List ℚ) : xs.foldl max x ∈ x :: xs := by
  induction xs generalizing x with
  | nil => simp
  | cons y ys ih =>
    have h := ih (max x y)
    simp only [List.foldl_cons]
    rcases List.mem_cons.mp h with h1 | h1
    · rcases max_choice x y with hxy | hxy
      · rw [h1, hxy]
        exact List.mem_cons_self x (y :: ys)
      · rw [h1, hxy]
        exact List.mem_cons_of_mem x (List.mem_cons_self y ys)
    · exact List.mem_cons_of_mem x (List.mem_cons_of_mem y h1)

theorem foldl_max_ge (x : ℚ) (xs : List ℚ) : ∀ y ∈ x :: xs, y ≤ xs.foldl max x := by
  induction xs generalizing x with
  | nil =>
    intro y hy
    simp only [List.mem_singleton] at hy
    simp [hy]
  | cons z zs ih =>
    intro y hy
    simp only [List.foldl_cons]
    have hbase : max x z ≤ zs.foldl max (max x z) :=
      ih (max x z) (max x z) (List.mem_cons_self _ _)
    rcases List.mem_cons.mp hy with rfl | hy2
    · exact le_trans (le_max_left _ _) hbase
    · rcases List.mem_cons.mp hy2 with rfl | hy3
      · exact le_trans (le_max_right _ _) hbase
      · exact ih (max x z) y (List.mem_cons_of_mem _ hy3)

theorem pyIndex_get (names : List String) (x : String) :
    ∀ i, pyIndex names x = some i → names[i]? = some x := by
  induction names with
  | nil =>
    intro i h
    simp [pyIndex] at h
  | cons y ys ih =>
    intro i h
    by_cases hxy : y = x
    · simp only [pyIndex, if_pos hxy] at h
      cases h
      simp [hxy]
    · simp only [pyIndex, if_neg hxy, Option.map_eq_some'] at h
      obtain ⟨j, hj, hji⟩ := h
      subst hji
      simp only [List.getElem?_cons_succ]
      exact ih j hj

theorem pyIndex_isSome (names : List String) (x : String) (h : x ∈ names) :
    ∃ i, pyIndex names x = some i := by
  induction names with
  | nil => simp at h
  | cons y ys ih =>
    by_cases hxy : y = x
    · exact ⟨0, by simp [pyIndex, hxy]⟩
    · have hmem : x ∈ ys := by
        rcases List.mem_cons.mp h with rfl | h2
        · exact absurd rfl hxy
        · exact h2
      obtain ⟨i, hi⟩ := ih hmem
      exact ⟨i + 1, by simp [pyIndex, hxy, hi]⟩

theorem rows_at_index (names : List String) (data : String → List ℚ) (i : ℕ)
    (h : pyIndex names "B" = some i) :
    (names.map data).getD i [] = data "B" := by
  have h2 := pyIndex_get names "B" i h
  rw [List.getD_eq_getElem?_getD, List.getElem?_map, h2]
  rfl

end Halbach

/-- C7: the GFR homogeneity equals 1e6*(bmax-bmin)/(2*b0) with bmin and bmax
the minimum and maximum of the B column of the buffer and b0 the host-reported
field at the origin; the division is unguarded (b0 = 0 would raise
ZeroDivisionError), and under the precondition b0 != 0 the computation is
total and the division-by-zero branch is unreachable. -/
theorem halbach_gfr_hom (names : List String) (data : String → List ℚ) (b0 : ℚ)
    (hB : "B" ∈ names) (hne : data "B" ≠ []) :
    (b0 = 0 → Halbach.gfrHom names data b0 = .error .zeroDivisionError)
    ∧ (b0 ≠ 0 → ∃ bmin bmax : ℚ,
        Halbach.pyMin (data "B") = some bmin
        ∧ Halbach.pyMax (data "B") = some bmax
        ∧ bmin ∈ data "B" ∧ (∀ y ∈ data "B", bmin ≤ y)
        ∧ bmax ∈ data "B" ∧ (∀ y ∈ data "B", y ≤ bmax)
        ∧ Halbach.gfrHom names data b0
            = .ok (1000000 * (bmax - bmin) / (2 * b0))) := by
  obtain ⟨i, hi⟩ := Halbach.pyIndex_isSome names "B" hB
  have h2i : names[i]? = some "B" := Halbach.pyIndex_get names "B" i hi
  rcases hl : data "B" with - | ⟨x, xs⟩
  · exact absurd hl hne
  constructor
  · intro hb0
    subst hb0
    simp [Halbach.gfrHom, hi, h2i, hl, Halbach.pyMin, Halbach.pyMax]
  · intro hb0
    have h2 : (2 : ℚ) * b0 ≠ 0 := mul_ne_zero two_ne_zero hb0
    exact ⟨xs.foldl min x, xs.foldl max x, rfl, rfl,
      Halbach.foldl_min_mem x xs, Halbach.foldl_min_le x xs,
      Halbach.foldl_max_mem x xs, Halbach.foldl_max_ge x xs,
      by simp [Halbach.gfrHom, hi, h2i, hl, Halbach.pyMin, Halbach.pyMax, h2]⟩

theorem halbach_gfr_hom_witness :
    ("B" ∈ ["X", "B"]
      ∧ (fun s => if s = "B" then [(3 : ℚ), 1, 2] else [0]) "B" ≠ [])
    ∧ (((5 : ℚ) = 0 →
        Halbach.gfrHom ["X", "B"]
          (fun s => if s = "B" then [(3 : ℚ), 1, 2] else [0]) 5
          = .error .zeroDivisionError)
      ∧ ((5 : ℚ) ≠ 0 → ∃ bmin bmax : ℚ,
          Halbach.pyMin ((fun s => if s = "B" then [(3 : ℚ), 1, 2] else [0]) "B")
              = some bmin
          ∧ Halbach.pyMax ((fun s => if s = "B" then [(3 : ℚ), 1, 2] else [0]) "B")
              = some bmax
          ∧ bmin ∈ (fun s => if s = "B" then [(3 : ℚ), 1, 2] else [0]) "B"
          ∧ (∀ y ∈ (fun s => if s = "B" then [(3 : ℚ), 1, 2] else [0]) "B", bmin ≤ y)
          ∧ bmax ∈ (fun s => if s = "B" then [(3 : ℚ), 1, 2] else [0]) "B"
          ∧ (∀ y ∈ (fun s => if s = "B" then [(3 : ℚ), 1, 2] else [0]) "B", y ≤ bmax)
          ∧ Halbach.gfrHom ["X", "B"]
              (fun s => if s = "B" then [(3 : ℚ), 1, 2] else [0]) 5
              = .ok (1000000 * (bmax - bmin) / (2 * 5)))) :=
  ⟨⟨by decide, by decide⟩,
    halbach_gfr_hom ["X", "B"] (fun s => if s = "B" then [(3 : ℚ), 1, 2] else [0]) 5
      (by decide) (by decide)⟩

/-- C9: in the .dat header, the line labelled GFR radius (mm) and the line
labelled GFR boundary max. B (T) both carry the formatted value of bmin,
while the line labelled GFR boundary min. B (T) carries bmax; the configured
gfr_radius value appears only in the earlier gfr_radius (mm) line. -/
theorem halbach_header_labels
    (n_blocks bore_diameter gap_blocks core_inner_thickness core_outer_thickness
      gfr_radius gfr_points mesh_blocks mesh_core mesh_max bd dd time_mesh
      time_solve b0 bmin bmax hom : ℚ) (bgs_factor bgs_mesh : List ℚ)
    (hd : gfr_radius ∉ ([n_blocks, bore_diameter, gap_blocks, gap_blocks * bd,
        core_inner_thickness, core_inner_thickness * bd, core_outer_thickness,
        core_outer_thickness * bd, gfr_points, mesh_blocks, mesh_core, mesh_max,
        bd, dd, time_mesh, time_solve, b0, bmin, bmax, hom] : List ℚ))
    (hf : gfr_radius ∉ bgs_factor) (hm : gfr_radius ∉ bgs_mesh) :
    (Halbach.headerLines n_blocks bore_diameter gap_blocks core_inner_thickness
        core_outer_thickness gfr_radius gfr_points mesh_blocks mesh_core mesh_max
        bd dd time_mesh time_solve b0 bmin bmax hom bgs_factor bgs_mesh).lookup
        "GFR radius (mm)" = some (.f12 bmin)
    ∧ (Halbach.headerLines n_blocks bore_diameter gap_blocks core_inner_thickness
        core_outer_thickness gfr_radius gfr_points mesh_blocks mesh_core mesh_max
        bd dd time_mesh time_solve b0 bmin bmax hom bgs_factor bgs_mesh).lookup
        "GFR boundary max. B (T)" = some (.f12 bmin)
    ∧ (Halbach.headerLines n_blocks bore_diameter gap_blocks core_inner_thickness
        core_outer_thickness gfr_radius gfr_points mesh_blocks mesh_core mesh_max
        bd dd time_mesh time_solve b0 bmin bmax hom bgs_factor bgs_mesh).lookup
        "GFR boundary min. B (T)" = some (.f12 bmax)
    ∧ (Halbach.headerLines n_blocks bore_diameter gap_blocks core_inner_thickness
        core_outer_thickness gfr_radius gfr_points mesh_blocks mesh_core mesh_max
        bd dd time_mesh time_solve b0 bmin bmax hom bgs_factor bgs_mesh).lookup
        "gfr_radius (mm)" = some (.plain gfr_radius)
    ∧ (∀ lv ∈ Halbach.headerLines n_blocks bore_diameter gap_blocks
        core_inner_thickness core_outer_thickness gfr_radius gfr_points
        mesh_blocks mesh_core mesh_max bd dd time_mesh time_solve b0 bmin bmax
        hom bgs_factor bgs_mesh,
        Halbach.valueHolds lv.2 gfr_radius → lv.1 = "gfr_radius (mm)") := by
  refine ⟨rfl, rfl, rfl, rfl, ?_⟩
  intro lv hlv hv
  fin_cases hlv <;> simp only [Halbach.valueHolds] at hv <;>
    first
      | rfl
      | exact absurd hv hf
      | exact absurd hv hm
      | exact absurd (by rw [← hv]; simp) hd

theorem halbach_header_labels_witness :
    ((20 : ℚ) ∉ ([12, 270, 101, 101 * 7, 102, 102 * 7, 103, 103 * 7,
        3600, 104, 105, 106, 7, 11, 1, 2, 3, 4, 5, 6] : List ℚ)
      ∧ (20 : ℚ) ∉ ([8] : List ℚ)
      ∧ (20 : ℚ) ∉ ([9] : List ℚ))
    ∧ ((Halbach.headerLines 12 270 101 102 103 20 3600 104 105 106
          7 11 1 2 3 4 5 6 [8] [9]).lookup "GFR radius (mm)"
            = some (.f12 4)
      ∧ (Halbach.headerLines 12 270 101 102 103 20 3600 104 105 106
          7 11 1 2 3 4 5 6 [8] [9]).lookup "GFR boundary max. B (T)"
            = some (.f12 4)
      ∧ (Halbach.headerLines 12 270 101 102 103 20 3600 104 105 106
          7 11 1 2 3 4 5 6 [8] [9]).lookup "GFR boundary min. B (T)"
            = some (.f12 5)
      ∧ (Halbach.headerLines 12 270 101 102 103 20 3600 104 105 106
          7 11 1 2 3 4 5 6 [8] [9]).lookup "gfr_radius (mm)"
            = some (.plain 20)
      ∧ (∀ lv ∈ Halbach.headerLines 12 270 101 102 103 20 3600 104 105 106
          7 11 1 2 3 4 5 6 [8] [9],
          Halbach.valueHolds lv.2 20 → lv.1 = "gfr_radius (mm)")) :=
  ⟨⟨by norm_num, by norm_num, by norm_num⟩,
    halbach_header_labels 12 270 101 102 103 20 3600 104 105 106
      7 11 1 2 3 4 5 6 [8] [9] (by norm_num) (by norm_num) (by norm_num)⟩
